import Mathlib

/-!
Verification development for the mobile front-end of a vehicle-diagnostics
product.  The definitions below are a shallow embedding of the network
discovery helpers, the authenticated request dispatcher and the session/auth
manager of the repository.  Network and database effects are made explicit:
a probe oracle maps a URL to the outcome of the underlying fetch, storage is
an explicit record of the two persisted keys, and JavaScript exceptions are
modelled with the Except monad (a try/catch becomes jsTry).
-/

/-- Platform tag (Platform.OS in the source): web, android, ios, or any
other value (physical devices and the default branch). -/
inductive PlatformOS where
  | web
  | android
  | ios
  | other
deriving DecidableEq, Repr

/-- JavaScript exceptions that the embedded code can observe: an abort fired
by a timeout, a network-level fetch rejection, a JSON parse failure, a
database failure, and a TypeError (for example dereferencing a null db). -/
inductive JsError where
  | timeout
  | network (msg : String)
  | parse
  | db (msg : String)
  | typeError (msg : String)
deriving DecidableEq, Repr

/-- The JavaScript error message carried by a JsError. -/
def jsErrMessage : JsError → String
  | .timeout => "Aborted"
  | .network m => m
  | .parse => "JSON Parse error"
  | .db m => m
  | .typeError m => m

/-- The part of a fetch Response the embedded code inspects: the ok flag,
the numeric status, and whether the body parses as JSON (some body when
response.json() succeeds, none when it would throw). -/
structure HttpResponse where
  ok : Bool
  status : Nat
  jsonBody : Option String
deriving DecidableEq, Repr

/-- A probe oracle: the outcome of fetching a given URL.  An error value is
a rejected fetch promise (timeout abort or network failure). -/
def Oracle : Type := String → Except JsError HttpResponse

/-- A JavaScript try/catch over the exception monad: run the body, divert a
raised exception into the handler. -/
def jsTry {a : Type} (body : Except JsError a) (handler : JsError → Except JsError a) :
    Except JsError a :=
  match body with
  | .ok v => .ok v
  | .error e => handler e

/-! ## utils/apiConfig -/

/-- Cloud backend URL constant as written in the source (the placeholder
that is to be updated after deployment). -/
def CLOUD_BACKEND_URL : String := "https://your-app-name.onrender.com/api"

/-- The source guards every use of the cloud URL by comparing it against the
placeholder literal; with the constant as committed this is false. -/
def cloudConfigured : Bool :=
  CLOUD_BACKEND_URL != "https://your-app-name.onrender.com/api"

/-- Health check timeout constant (ms). -/
def HEALTH_CHECK_TIMEOUT : Nat := 30000

/-- Default API call timeout constant (ms). -/
def API_TIMEOUT : Nat := 60000

/-- getApiBaseUrl from utils/apiConfig: cloud URL when configured, otherwise
a platform-dependent default (localhost in every branch). -/
def getApiBaseUrl (p : PlatformOS) : String :=
  if cloudConfigured then CLOUD_BACKEND_URL
  else
    match p with
    | .android => "http://localhost:8000/api"
    | .ios => "http://localhost:8000/api"
    | _ => "http://localhost:8000/api"

/-- testConnection from utils/apiConfig: GET url/health, true when the
response has a success status, false on a non-success status; the
surrounding try/catch turns any exception into false. -/
def testConnection (o : Oracle) (url : String) : Bool :=
  match o (url ++ "/health") with
  | .ok r => r.ok
  | .error _ => false

/-- testConnection with the exception effect kept visible: the body may
raise, the catch handler returns false. -/
def testConnectionE (o : Oracle) (url : String) : Except JsError Bool :=
  jsTry
    (do
      let r ← o (url ++ "/health")
      pure r.ok)
    (fun _ => pure false)

/-- Candidate list built inside findWorkingConnection: cloud URL first when
configured, then the per-platform development URLs pushed in source order. -/
def findWorkingConnectionUrls (p : PlatformOS) : List String :=
  (if cloudConfigured then [CLOUD_BACKEND_URL] else []) ++
    (match p with
     | .android =>
        ["http://localhost:8000/api", "http://10.0.2.2:8000/api",
         "http://127.0.0.1:8000/api", "http://192.168.1.100:8000/api"]
     | .ios =>
        ["http://localhost:8000/api", "http://127.0.0.1:8000/api",
         "http://192.168.1.100:8000/api"]
     | _ => [])

/-- The sequential trial loop: first list element satisfying the per-url
test, none when every element fails. -/
def firstSat (q : String → Bool) : List String → Option String
  | [] => none
  | u :: rest => if q u then some u else firstSat q rest

/-- The urls actually probed by the sequential loop: every url up to and
including the first success, the whole list when none succeeds. -/
def probeTrace (q : String → Bool) : List String → List String
  | [] => []
  | u :: rest => if q u then [u] else u :: probeTrace q rest

/-- findWorkingConnection from utils/apiConfig: walk the candidate list in
order and return the first url whose health probe reports success, null
(none) when all fail. -/
def findWorkingConnection (p : PlatformOS) (o : Oracle) : Option String :=
  firstSat (testConnection o) (findWorkingConnectionUrls p)

/-- The loop of findWorkingConnection with the exception effect kept
visible: each iteration wraps its probe in try/catch and moves on to the
next candidate on any caught exception. -/
def findWorkingConnectionGoE (o : Oracle) : List String → Except JsError (Option String)
  | [] => pure none
  | u :: rest => do
      let hit ← jsTry
        (do
          let b ← testConnectionE o u
          pure (if b then some u else none))
        (fun _ => pure none)
      match hit with
      | some v => pure (some v)
      | none => findWorkingConnectionGoE o rest

/-! ## Connection test utility (testSingleConnection and friends) -/

/-- Result record returned by the connection test utility.  The free-form
diagnostic details payload of the source is not modelled; success, message
and workingUrl are. -/
structure ConnectionTestResult where
  success : Bool
  message : String
  workingUrl : Option String
deriving DecidableEq, Repr

/-- testSingleConnection: GET baseUrl/health through fetchWithTimeout with a
5000 ms budget; a success status with a JSON body yields a success record
carrying the working url, a non-success status yields a failure record, and
any exception (including a body that fails to parse) is caught and yields a
failure record. -/
def testSingleConnection (o : Oracle) (baseUrl : String) : ConnectionTestResult :=
  match o (baseUrl ++ "/health") with
  | .ok r =>
      if r.ok then
        match r.jsonBody with
        | some _ =>
            { success := true
              message := "Successfully connected to " ++ baseUrl
              workingUrl := some baseUrl }
        | none =>
            { success := false
              message := "Connection failed: " ++ jsErrMessage JsError.parse
              workingUrl := none }
      else
        { success := false
          message := "Server responded with status " ++ toString r.status
          workingUrl := none }
  | .error e =>
      { success := false
        message := "Connection failed: " ++ jsErrMessage e
        workingUrl := none }

/-- testSingleConnection with the exception effect kept visible: the fetch
and the body parse may raise inside the try block, the catch handler maps
any exception to a failure record. -/
def testSingleConnectionE (o : Oracle) (baseUrl : String) : Except JsError ConnectionTestResult :=
  jsTry
    (do
      let r ← o (baseUrl ++ "/health")
      if r.ok then
        match r.jsonBody with
        | some _ =>
            pure { success := true
                   message := "Successfully connected to " ++ baseUrl
                   workingUrl := some baseUrl }
        | none => throw JsError.parse
      else
        pure { success := false
               message := "Server responded with status " ++ toString r.status
               workingUrl := none })
    (fun e =>
      pure { success := false
             message := "Connection failed: " ++ jsErrMessage e
             workingUrl := none })

/-- The static machine IP list of getPossibleBackendUrls. -/
def machineIPs : List String :=
  ["192.168.1.100", "192.168.0.100", "192.168.114.97", "10.0.0.100"]

/-- getPossibleBackendUrls: per-platform local/emulator addresses pushed
first, then one url per static machine IP. -/
def getPossibleBackendUrls (p : PlatformOS) : List String :=
  (match p with
   | .web => ["http://localhost:8000/api", "http://127.0.0.1:8000/api"]
   | .android =>
      ["http://10.0.2.2:8000/api", "http://localhost:8000/api",
       "http://127.0.0.1:8000/api"]
   | .ios => ["http://localhost:8000/api", "http://127.0.0.1:8000/api"]
   | .other => []) ++
    machineIPs.map (fun ip => "http://" ++ ip ++ ":8000/api")

/-- The loop of testBackendConnection: test each url in order, return the
first success record, none when all candidates fail. -/
def testBackendGo (o : Oracle) : List String → Option ConnectionTestResult
  | [] => none
  | u :: rest =>
      let r := testSingleConnection o u
      if r.success then some r else testBackendGo o rest

/-- The loop of testBackendConnection with the exception effect kept
visible (the loop body itself has no try/catch; the probe it calls
catches everything internally). -/
def testBackendGoE (o : Oracle) : List String → Except JsError (Option ConnectionTestResult)
  | [] => pure none
  | u :: rest => do
      let r ← testSingleConnectionE o u
      if r.success then pure (some r) else testBackendGoE o rest

/-- The failure record testBackendConnection returns when every candidate
fails (its diagnostic details payload is not modelled). -/
def connectionFailureResult : ConnectionTestResult :=
  { success := false
    message := "Could not connect to any backend URL"
    workingUrl := none }

/-- The overall result of the testBackendConnection loop over a given
candidate list. -/
def testBackendResult (o : Oracle) (urls : List String) : ConnectionTestResult :=
  match testBackendGo o urls with
  | some r => r
  | none => connectionFailureResult

/-- testBackendConnection: run the loop over getPossibleBackendUrls. -/
def testBackendConnection (p : PlatformOS) (o : Oracle) : ConnectionTestResult :=
  testBackendResult o (getPossibleBackendUrls p)

/-- A fully successful health probe: the fetch resolves, the status is a
success status, and the body is the JSON payload a healthy backend serves. -/
def strongProbe (o : Oracle) (url : String) : Bool :=
  match o (url ++ "/health") with
  | .ok r => r.ok && r.jsonBody.isSome
  | .error _ => false

/-- A failed health probe in the sense of the spec: the fetch rejects
(timeout or network error) or resolves with a non-success status. -/
def probeFails (o : Oracle) (url : String) : Bool :=
  match o (url ++ "/health") with
  | .ok r => !r.ok
  | .error _ => true

/-! ### Helper lemmas about the probes and the trial loop -/

theorem strongProbe_testConnection {o : Oracle} {u : String}
    (h : strongProbe o u = true) : testConnection o u = true := by
  cases ho : o (u ++ "/health") with
  | ok r =>
      simp only [strongProbe, ho, Bool.and_eq_true] at h
      simp [testConnection, ho, h.1]
  | error e => simp [strongProbe, ho] at h

theorem strongProbe_testSingle {o : Oracle} {u : String}
    (h : strongProbe o u = true) :
    (testSingleConnection o u).success = true ∧
      (testSingleConnection o u).workingUrl = some u := by
  cases ho : o (u ++ "/health") with
  | ok r =>
      simp only [strongProbe, ho, Bool.and_eq_true] at h
      rcases h with ⟨hok, hBody⟩
      cases hb : r.jsonBody with
      | some d => simp [testSingleConnection, ho, hok, hb]
      | none => rw [hb] at hBody; simp at hBody
  | error e => simp [strongProbe, ho] at h

theorem testConnection_false_testSingle {o : Oracle} {u : String}
    (h : testConnection o u = false) :
    (testSingleConnection o u).success = false := by
  cases ho : o (u ++ "/health") with
  | ok r =>
      simp only [testConnection, ho] at h
      cases hb : r.jsonBody <;> simp [testSingleConnection, ho, h, hb]
  | error e => simp [testSingleConnection, ho]

theorem probeFails_testConnection {o : Oracle} {u : String}
    (h : probeFails o u = true) : testConnection o u = false := by
  cases ho : o (u ++ "/health") with
  | ok r =>
      simp only [probeFails, ho] at h
      simp [testConnection, ho]
      simpa using h
  | error e => simp [testConnection, ho]

theorem firstSat_first_true (q : String → Bool) :
    ∀ (l : List String) (k : Nat) (hk : k < l.length),
      (∀ u ∈ l.take k, q u = false) → q (l.get ⟨k, hk⟩) = true →
      firstSat q l = some (l.get ⟨k, hk⟩) ∧ probeTrace q l = l.take (k + 1) := by
  intro l
  induction l with
  | nil => intro k hk; exact absurd hk (by simp)
  | cons u rest ih =>
      intro k hk h1 h2
      cases k with
      | zero =>
          simp only [List.get] at h2
          constructor
          · simp [firstSat, h2]
          · simp [probeTrace, h2]
      | succ k =>
          have hu : q u = false := h1 u (by simp [List.take])
          have hk2 : k < rest.length := Nat.lt_of_succ_lt_succ hk
          have hrest : ∀ v ∈ rest.take k, q v = false := by
            intro v hv
            exact h1 v (by simp [List.take]; exact Or.inr hv)
          have h2r : q (rest.get ⟨k, hk2⟩) = true := by
            simpa [List.get] using h2
          have := ih k hk2 hrest h2r
          constructor
          · simpa [firstSat, hu, List.get] using this.1
          · simp [probeTrace, hu, List.take]
            exact this.2

theorem firstSat_all_false (q : String → Bool) :
    ∀ (l : List String), (∀ u ∈ l, q u = false) →
      firstSat q l = none ∧ probeTrace q l = l := by
  intro l
  induction l with
  | nil => intro _; simp [firstSat, probeTrace]
  | cons u rest ih =>
      intro h
      have hu : q u = false := h u (by simp)
      have := ih (fun v hv => h v (by simp [hv]))
      constructor
      · simp [firstSat, hu, this.1]
      · simp [probeTrace, hu, this.2]

theorem firstSat_mem (q : String → Bool) :
    ∀ (l : List String) (u : String), firstSat q l = some u → u ∈ l := by
  intro l
  induction l with
  | nil => intro u h; simp [firstSat] at h
  | cons v rest ih =>
      intro u h
      by_cases hv : q v = true
      · simp [firstSat, hv] at h
        simp [h]
      · simp [firstSat, hv] at h
        exact List.mem_cons.mpr (Or.inr (ih u h))

theorem testConnectionE_ok (o : Oracle) (u : String) :
    testConnectionE o u = Except.ok (testConnection o u) := by
  cases ho : o (u ++ "/health") with
  | ok r => simp [testConnectionE, testConnection, jsTry, ho, bind, Except.bind, pure, Except.pure]
  | error e => simp [testConnectionE, testConnection, jsTry, ho, bind, Except.bind, pure, Except.pure]

theorem findWorkingConnectionGoE_ok (o : Oracle) :
    ∀ l : List String,
      findWorkingConnectionGoE o l = Except.ok (firstSat (testConnection o) l) := by
  intro l
  induction l with
  | nil => simp [findWorkingConnectionGoE, firstSat, pure, Except.pure]
  | cons u rest ih =>
      by_cases hu : testConnection o u = true
      · simp [findWorkingConnectionGoE, firstSat, testConnectionE_ok, jsTry, hu,
          bind, Except.bind, pure, Except.pure]
      · simp only [Bool.not_eq_true] at hu
        simp [findWorkingConnectionGoE, firstSat, testConnectionE_ok, jsTry, hu,
          bind, Except.bind, pure, Except.pure, ih]

theorem testSingleConnectionE_ok (o : Oracle) (u : String) :
    testSingleConnectionE o u = Except.ok (testSingleConnection o u) := by
  cases ho : o (u ++ "/health") with
  | ok r =>
      cases hok : r.ok with
      | true =>
          cases hb : r.jsonBody with
          | some d =>
              simp [testSingleConnectionE, testSingleConnection, jsTry, ho, hok, hb,
                bind, Except.bind, pure, Except.pure]
          | none =>
              simp [testSingleConnectionE, testSingleConnection, jsTry, ho, hok, hb,
                bind, Except.bind, pure, Except.pure, throw, throwThe, MonadExceptOf.throw]
      | false =>
          simp [testSingleConnectionE, testSingleConnection, jsTry, ho, hok,
            bind, Except.bind, pure, Except.pure]
  | error e =>
      simp [testSingleConnectionE, testSingleConnection, jsTry, ho, bind, Except.bind, pure, Except.pure]

theorem testBackendGoE_ok (o : Oracle) :
    ∀ l : List String, testBackendGoE o l = Except.ok (testBackendGo o l) := by
  intro l
  induction l with
  | nil => simp [testBackendGoE, testBackendGo, pure, Except.pure]
  | cons u rest ih =>
      by_cases hu : (testSingleConnection o u).success = true
      · simp [testBackendGoE, testBackendGo, testSingleConnectionE_ok, hu,
          bind, Except.bind, pure, Except.pure]
      · simp only [Bool.not_eq_true] at hu
        simp [testBackendGoE, testBackendGo, testSingleConnectionE_ok, hu,
          bind, Except.bind, pure, Except.pure, ih]

theorem testBackendGo_first_true (o : Oracle) :
    ∀ (l : List String) (k : Nat) (hk : k < l.length),
      (∀ u ∈ l.take k, testConnection o u = false) →
      strongProbe o (l.get ⟨k, hk⟩) = true →
      testBackendGo o l = some (testSingleConnection o (l.get ⟨k, hk⟩)) := by
  intro l
  induction l with
  | nil => intro k hk; exact absurd hk (by simp)
  | cons u rest ih =>
      intro k hk h1 h2
      cases k with
      | zero =>
          simp only [List.get] at h2
          have := strongProbe_testSingle h2
          simp [testBackendGo, this.1]
      | succ k =>
          have hu : testConnection o u = false := h1 u (by simp [List.take])
          have hsingle := testConnection_false_testSingle hu
          have hk2 : k < rest.length := Nat.lt_of_succ_lt_succ hk
          have hrest : ∀ v ∈ rest.take k, testConnection o v = false := by
            intro v hv
            exact h1 v (by simp [List.take]; exact Or.inr hv)
          have h2r : strongProbe o (rest.get ⟨k, hk2⟩) = true := by
            simpa [List.get] using h2
          have := ih k hk2 hrest h2r
          simpa [testBackendGo, hsingle, List.get] using this

theorem testBackendGo_all_fail (o : Oracle) :
    ∀ l : List String, (∀ u ∈ l, probeFails o u = true) →
      testBackendGo o l = none := by
  intro l
  induction l with
  | nil => intro _; simp [testBackendGo]
  | cons u rest ih =>
      intro h
      have hu := probeFails_testConnection (h u (by simp))
      have hsingle := testConnection_false_testSingle hu
      simp [testBackendGo, hsingle, ih (fun v hv => h v (by simp [hv]))]

/-- C1: for every non-empty candidate list in which candidate k is the first
whose health probe returns a success response (a success status with the
JSON body a healthy backend serves, all earlier probes failing or returning
a non-success status), the sequential discovery loop of findWorkingConnection
returns candidate k, the loop of testBackendConnection returns a success
record naming candidate k, and both loops probe exactly the candidates up to
and including position k — none after it. -/
theorem discovery_first_success_wins (o : Oracle) (urls : List String) (k : Nat)
    (hk : k < urls.length)
    (hbefore : ∀ u ∈ urls.take k, testConnection o u = false)
    (hsucc : strongProbe o (urls.get ⟨k, hk⟩) = true) :
    firstSat (testConnection o) urls = some (urls.get ⟨k, hk⟩) ∧
    probeTrace (testConnection o) urls = urls.take (k + 1) ∧
    (testBackendResult o urls).success = true ∧
    (testBackendResult o urls).workingUrl = some (urls.get ⟨k, hk⟩) ∧
    probeTrace (fun u => (testSingleConnection o u).success) urls = urls.take (k + 1) ∧
    (∀ p, urls = findWorkingConnectionUrls p →
      findWorkingConnection p o = some (urls.get ⟨k, hk⟩)) ∧
    (∀ p, urls = getPossibleBackendUrls p →
      (testBackendConnection p o).workingUrl = some (urls.get ⟨k, hk⟩)) := by
  have h1 := firstSat_first_true (testConnection o) urls k hk hbefore
    (strongProbe_testConnection hsucc)
  have h2 := testBackendGo_first_true o urls k hk hbefore hsucc
  have h3 := firstSat_first_true (fun u => (testSingleConnection o u).success) urls k hk
    (fun u hu => testConnection_false_testSingle (hbefore u hu))
    (strongProbe_testSingle hsucc).1
  have hs := strongProbe_testSingle hsucc
  refine ⟨h1.1, h1.2, ?_, ?_, h3.2, ?_, ?_⟩
  · simp only [testBackendResult, h2]
    exact hs.1
  · simp only [testBackendResult, h2]
    exact hs.2
  · intro p hp
    unfold findWorkingConnection
    rw [← hp]
    exact h1.1
  · intro p hp
    unfold testBackendConnection
    rw [← hp]
    simp only [testBackendResult, h2]
    exact hs.2

/-- Concrete three-candidate scenario for the C1 witness: only the second
candidate has a healthy backend behind it. -/
def c1Oracle : Oracle := fun u =>
  if u = "http://b.example/health" then
    Except.ok { ok := true, status := 200, jsonBody := some "status ok" }
  else Except.error JsError.timeout

/-- Candidate list for the C1 witness. -/
def c1Urls : List String := ["http://a.example", "http://b.example", "http://c.example"]

theorem discovery_first_success_wins_witness :
    firstSat (testConnection c1Oracle) c1Urls = some "http://b.example" ∧
    probeTrace (testConnection c1Oracle) c1Urls = ["http://a.example", "http://b.example"] ∧
    (testBackendResult c1Oracle c1Urls).success = true ∧
    (testBackendResult c1Oracle c1Urls).workingUrl = some "http://b.example" ∧
    probeTrace (fun u => (testSingleConnection c1Oracle u).success) c1Urls =
      ["http://a.example", "http://b.example"] ∧
    (∀ p, c1Urls = findWorkingConnectionUrls p →
      findWorkingConnection p c1Oracle = some "http://b.example") ∧
    (∀ p, c1Urls = getPossibleBackendUrls p →
      (testBackendConnection p c1Oracle).workingUrl = some "http://b.example") := by
  have h := discovery_first_success_wins c1Oracle c1Urls 1 (by decide)
    (by decide) (by decide)
  exact h

/-- C2: when every candidate probe fails (rejects with a timeout or network
error, or resolves with a non-success status), the discovery loop of
findWorkingConnection returns null, the loop of testBackendConnection
returns its success-false record, and both runs end normally in the
exception monad: no candidate failure escapes as an unhandled exception. -/
theorem discovery_all_fail_notfound (o : Oracle) (urls : List String)
    (hfail : ∀ u ∈ urls, probeFails o u = true) :
    firstSat (testConnection o) urls = none ∧
    (testBackendResult o urls).success = false ∧
    findWorkingConnectionGoE o urls = Except.ok none ∧
    testBackendGoE o urls = Except.ok none ∧
    (∀ p, urls = findWorkingConnectionUrls p → findWorkingConnection p o = none) ∧
    (∀ p, urls = getPossibleBackendUrls p →
      testBackendConnection p o = connectionFailureResult) := by
  have h1 := firstSat_all_false (testConnection o) urls
    (fun u hu => probeFails_testConnection (hfail u hu))
  have h2 := testBackendGo_all_fail o urls hfail
  refine ⟨h1.1, ?_, ?_, ?_, ?_, ?_⟩
  · simp [testBackendResult, h2, connectionFailureResult]
  · rw [findWorkingConnectionGoE_ok, h1.1]
  · rw [testBackendGoE_ok, h2]
  · intro p hp
    unfold findWorkingConnection
    rw [← hp]
    exact h1.1
  · intro p hp
    unfold testBackendConnection
    rw [← hp]
    simp [testBackendResult, h2]

/-- An oracle behind which every fetch rejects, for the C2 witness. -/
def c2Oracle : Oracle := fun _ => Except.error (JsError.network "Network request failed")

theorem discovery_all_fail_notfound_witness :
    firstSat (testConnection c2Oracle) (getPossibleBackendUrls PlatformOS.android) = none ∧
    (testBackendResult c2Oracle (getPossibleBackendUrls PlatformOS.android)).success = false ∧
    findWorkingConnectionGoE c2Oracle (getPossibleBackendUrls PlatformOS.android) =
      Except.ok none ∧
    testBackendGoE c2Oracle (getPossibleBackendUrls PlatformOS.android) = Except.ok none ∧
    (∀ p, getPossibleBackendUrls PlatformOS.android = findWorkingConnectionUrls p →
      findWorkingConnection p c2Oracle = none) ∧
    (∀ p, getPossibleBackendUrls PlatformOS.android = getPossibleBackendUrls p →
      testBackendConnection p c2Oracle = connectionFailureResult) := by
  have h := discovery_all_fail_notfound c2Oracle (getPossibleBackendUrls PlatformOS.android)
    (by decide)
  exact h

/-! ## Candidate list shape (claim C8) -/

/-- Spec-side decomposition: the cloud segment of a candidate list — the
cloud URL exactly when it is configured. -/
def specCloudSegment : List String :=
  if cloudConfigured then [CLOUD_BACKEND_URL] else []

/-- Spec-side decomposition: the platform-specific localhost/emulator
addresses findWorkingConnection tries for each platform. -/
def specLocalSegmentFind (p : PlatformOS) : List String :=
  match p with
  | .android =>
      ["http://localhost:8000/api", "http://10.0.2.2:8000/api",
       "http://127.0.0.1:8000/api"]
  | .ios => ["http://localhost:8000/api", "http://127.0.0.1:8000/api"]
  | _ => []

/-- Spec-side decomposition: the enumerated private-network addresses
findWorkingConnection tries after the local ones. -/
def specPrivateSegmentFind (p : PlatformOS) : List String :=
  match p with
  | .android => ["http://192.168.1.100:8000/api"]
  | .ios => ["http://192.168.1.100:8000/api"]
  | _ => []

/-- Spec-side decomposition: the platform-specific localhost/emulator
addresses getPossibleBackendUrls starts with. -/
def specLocalSegmentPossible (p : PlatformOS) : List String :=
  match p with
  | .web => ["http://localhost:8000/api", "http://127.0.0.1:8000/api"]
  | .android =>
      ["http://10.0.2.2:8000/api", "http://localhost:8000/api",
       "http://127.0.0.1:8000/api"]
  | .ios => ["http://localhost:8000/api", "http://127.0.0.1:8000/api"]
  | .other => []

/-- Spec-side decomposition: the urls built from the static enumerated
private-network machine IPs. -/
def specPrivateSegmentPossible : List String :=
  machineIPs.map (fun ip => "http://" ++ ip ++ ":8000/api")

/-- The loopback and emulator base addresses of the development setup. -/
def loopbackAndEmulatorPool : List String :=
  ["http://localhost:8000/api", "http://127.0.0.1:8000/api",
   "http://10.0.2.2:8000/api"]

/-- The private-network base addresses enumerated anywhere in the source. -/
def privateIpPool : List String :=
  ["http://192.168.1.100:8000/api", "http://192.168.0.100:8000/api",
   "http://192.168.114.97:8000/api", "http://10.0.0.100:8000/api"]

/-- C8: for every platform tag, each discovery builder produces its
candidate list as the cloud segment (the cloud URL exactly when
configured), followed by platform-specific localhost/emulator addresses,
followed by enumerated private-network addresses — and nothing else.  Both
builders are pure functions of the platform tag, so the list is rebuilt
fresh on every discovery call. -/
theorem candidate_list_order (p : PlatformOS) :
    findWorkingConnectionUrls p =
      specCloudSegment ++ specLocalSegmentFind p ++ specPrivateSegmentFind p ∧
    getPossibleBackendUrls p =
      specCloudSegment ++ specLocalSegmentPossible p ++ specPrivateSegmentPossible ∧
    (specLocalSegmentFind p).all (fun u => loopbackAndEmulatorPool.contains u) = true ∧
    (specPrivateSegmentFind p).all (fun u => privateIpPool.contains u) = true ∧
    (specLocalSegmentPossible p).all (fun u => loopbackAndEmulatorPool.contains u) = true ∧
    specPrivateSegmentPossible.all (fun u => privateIpPool.contains u) = true ∧
    specCloudSegment = (if cloudConfigured then [CLOUD_BACKEND_URL] else []) := by
  cases p <;> decide

/-! ## findWorkingApiUrl and its process-wide cache (claim C9) -/

/-- One observation of the api module: the url handed to the caller, the
module-level cache variable after the call, and how many health probes the
call issued. -/
structure ApiUrlLookup where
  url : String
  cache : Option String
  probes : Nat
deriving DecidableEq, Repr

/-- The discovery branch of findWorkingApiUrl: run findWorkingConnection,
cache and return the discovered url, or fall back to getApiBaseUrl and
cache that. -/
def findWorkingApiUrlDiscover (p : PlatformOS) (o : Oracle) : ApiUrlLookup :=
  match findWorkingConnection p o with
  | some url =>
      { url := url
        cache := some url
        probes := (probeTrace (testConnection o) (findWorkingConnectionUrls p)).length }
  | none =>
      { url := getApiBaseUrl p
        cache := some (getApiBaseUrl p)
        probes := (probeTrace (testConnection o) (findWorkingConnectionUrls p)).length }

/-- findWorkingApiUrl: return the cached url when the module variable holds
a truthy string (JavaScript truthiness: null and the empty string are
falsy), otherwise discover and cache. -/
def findWorkingApiUrl (cache : Option String) (p : PlatformOS) (o : Oracle) : ApiUrlLookup :=
  match cache with
  | some s =>
      if s = "" then findWorkingApiUrlDiscover p o
      else { url := s, cache := some s, probes := 0 }
  | none => findWorkingApiUrlDiscover p o

theorem findWorkingConnectionUrls_ne_empty (p : PlatformOS) :
    ∀ u ∈ findWorkingConnectionUrls p, u ≠ "" := by
  cases p <;> decide

theorem getApiBaseUrl_ne_empty (p : PlatformOS) : getApiBaseUrl p ≠ "" := by
  cases p <;> decide

/-- C9: starting from an unset cache, one completed findWorkingApiUrl call
stores the url it returns (the first working discovered url, or the
getApiBaseUrl default when discovery found none), the stored string is
never empty, and every subsequent call — whatever its probe oracle would
answer — returns the same url with zero health probes. -/
theorem findWorkingApiUrl_caches (p : PlatformOS) (o o2 : Oracle) :
    (findWorkingApiUrl none p o).cache = some (findWorkingApiUrl none p o).url ∧
    (findWorkingApiUrl none p o).url ≠ "" ∧
    (findWorkingConnection p o = some (findWorkingApiUrl none p o).url ∨
      (findWorkingConnection p o = none ∧
        (findWorkingApiUrl none p o).url = getApiBaseUrl p)) ∧
    findWorkingApiUrl (findWorkingApiUrl none p o).cache p o2 =
      { url := (findWorkingApiUrl none p o).url
        cache := (findWorkingApiUrl none p o).cache
        probes := 0 } := by
  cases hfw : findWorkingConnection p o with
  | some url =>
      have hmem : url ∈ findWorkingConnectionUrls p :=
        firstSat_mem (testConnection o) (findWorkingConnectionUrls p) url hfw
      have hne : url ≠ "" := findWorkingConnectionUrls_ne_empty p url hmem
      refine ⟨?_, ?_, ?_, ?_⟩ <;>
        simp [findWorkingApiUrl, findWorkingApiUrlDiscover, hfw, hne]
  | none =>
      have hne := getApiBaseUrl_ne_empty p
      refine ⟨?_, ?_, ?_, ?_⟩ <;>
        simp [findWorkingApiUrl, findWorkingApiUrlDiscover, hfw, hne]

/-! ## Authenticated request dispatcher (api module) -/

/-- The two persisted storage keys the auth layer uses: authToken and the
serialized user. -/
structure Storage where
  authToken : Option String
  user : Option String
deriving DecidableEq, Repr

/-- getAuthToken: read the authToken key; the surrounding try/catch maps a
storage failure to null, so the read is total. -/
def getAuthToken (st : Storage) : Option String :=
  st.authToken

/-- An outgoing network request as the embedded code shapes it: target url,
method, header list, and the abort timeout armed for the call (none when
the call is a plain fetch with no timer). -/
structure Request where
  url : String
  method : String
  headers : List (String × String)
  timeout : Option Nat
deriving DecidableEq, Repr

/-- The conditional Authorization header: present exactly when a token is
stored. -/
def authHeader : Option String → List (String × String)
  | some t => [("Authorization", "Bearer " ++ t)]
  | none => []

/-- The request apiCall issues: base url plus endpoint, JSON content type,
the bearer header when a token is present, then the caller headers; built
from a plain fetch, so no timeout is armed. -/
def apiCallRequest (st : Storage) (base endpoint method : String)
    (optHeaders : List (String × String)) : Request :=
  { url := base ++ endpoint
    method := method
    headers := ("Content-Type", "application/json") :: authHeader (getAuthToken st) ++ optHeaders
    timeout := none }

/-- What apiCall inspects of a response: ok flag, status, the outcome of
parsing the error body as JSON (outer none when response.json() throws,
inner value the detail field when present), and the parsed success body. -/
structure ApiResponse where
  ok : Bool
  status : Nat
  errJson : Option (Option String)
  body : String
deriving DecidableEq, Repr

/-- A response oracle for dispatcher calls: outcome of issuing a request. -/
def RespOracle : Type := Request → Except JsError ApiResponse

/-- A failure escaping apiCall: either an Error the dispatcher itself threw
(Not authenticated, or a detail extracted from the error body), or the raw
network-level exception it propagates unchanged. -/
inductive ApiError where
  | thrown (msg : String)
  | network (e : JsError)
deriving DecidableEq, Repr

/-- Observable outcome of one apiCall: its result, the storage afterwards,
the request it issued, and how many times it removed the authToken key. -/
structure ApiCallOut where
  result : Except ApiError String
  store : Storage
  request : Request
  tokenRemovals : Nat
deriving Repr

/-- The detail string apiCall throws for a non-401 error response:
response.json() failing gives the literal Network error detail, a parsed
body without a truthy detail falls back to the generic message. -/
def errDetailOf (r : ApiResponse) : String :=
  match r.errJson with
  | none => "Network error"
  | some none => "API request failed"
  | some (some d) => if d = "" then "API request failed" else d

/-- The dispatch step of apiCall on the already-built request.  Parsing of
the success body is not modelled (no claim touches it); error responses and
the 401 branch are. -/
def apiCallGo (st : Storage) (req : Request) (respond : RespOracle) : ApiCallOut :=
  match respond req with
  | .error e =>
      { result := .error (.network e), store := st, request := req, tokenRemovals := 0 }
  | .ok r =>
      if r.ok then
        { result := .ok r.body, store := st, request := req, tokenRemovals := 0 }
      else if r.status = 401 then
        { result := .error (.thrown "Not authenticated")
          store := { st with authToken := none }
          request := req
          tokenRemovals := 1 }
      else
        { result := .error (.thrown (errDetailOf r))
          store := st
          request := req
          tokenRemovals := 0 }

/-- apiCall: read the token, build the request, issue it and map the
response as the source does. -/
def apiCall (st : Storage) (base endpoint method : String)
    (optHeaders : List (String × String)) (respond : RespOracle) : ApiCallOut :=
  apiCallGo st (apiCallRequest st base endpoint method optHeaders) respond

/-- The request fetchWithTimeout issues: Accept and JSON content headers
merged with the caller headers, and an abort timer armed for the given
budget. -/
def fetchWithTimeoutRequest (url method : String)
    (optHeaders : List (String × String)) (t : Nat) : Request :=
  { url := url
    method := method
    headers := ("Accept", "application/json") ::
      ("Content-Type", "application/json") :: optHeaders
    timeout := some t }

/-- fetchWithTimeout: issue exactly one request with the abort timer armed;
on failure it clears the timer and rethrows, so the outcome is exactly the
outcome of that single request — no retry at this layer. -/
def fetchWithTimeout (respond : RespOracle) (url method : String)
    (optHeaders : List (String × String)) (t : Nat) :
    Request × Except JsError ApiResponse :=
  (fetchWithTimeoutRequest url method optHeaders t,
   respond (fetchWithTimeoutRequest url method optHeaders t))

/-- C3: a dispatcher call whose response is a 401 deletes the persisted
authToken key exactly once and fails with the Not authenticated error; and
any call made while no token is stored (and whose caller options carry no
Authorization header of their own) issues a request without an
Authorization header. -/
theorem apiCall_401_clears_token :
    (∀ (st : Storage) (base ep m : String) (oh : List (String × String))
        (respond : RespOracle) (r : ApiResponse),
        respond (apiCallRequest st base ep m oh) = Except.ok r →
        r.ok = false → r.status = 401 →
        (apiCall st base ep m oh respond).result =
          Except.error (ApiError.thrown "Not authenticated") ∧
        (apiCall st base ep m oh respond).store.authToken = none ∧
        (apiCall st base ep m oh respond).tokenRemovals = 1) ∧
    (∀ (st : Storage) (base ep m : String) (oh : List (String × String))
        (respond : RespOracle),
        st.authToken = none →
        (∀ h ∈ oh, h.1 ≠ "Authorization") →
        ∀ h ∈ (apiCall st base ep m oh respond).request.headers,
          h.1 ≠ "Authorization") := by
  constructor
  · intro st base ep m oh respond r hresp hok hs
    refine ⟨?_, ?_, ?_⟩ <;> simp [apiCall, apiCallGo, hresp, hok, hs]
  · intro st base ep m oh respond hst hoh h hmem
    have hreq : (apiCall st base ep m oh respond).request =
        apiCallRequest st base ep m oh := by
      unfold apiCall apiCallGo
      cases respond (apiCallRequest st base ep m oh) with
      | error e => rfl
      | ok r =>
          by_cases hok : r.ok = true
          · simp [hok]
          · by_cases hs : r.status = 401 <;> simp [hok, hs]
    rw [hreq] at hmem
    simp [apiCallRequest, getAuthToken, hst, authHeader] at hmem
    rcases hmem with hmem | hmem
    · subst hmem
      decide
    · exact hoh h hmem

/-- A backend that answers 401 to everything, for the C3 witness. -/
def c3Respond : RespOracle := fun _ =>
  Except.ok { ok := false, status := 401, errJson := some none, body := "" }

theorem apiCall_401_clears_token_witness :
    ((apiCall { authToken := some "tok123", user := some "u" }
        "http://localhost:8000/api" "/notifications/" "GET" [] c3Respond).result =
      Except.error (ApiError.thrown "Not authenticated") ∧
    (apiCall { authToken := some "tok123", user := some "u" }
        "http://localhost:8000/api" "/notifications/" "GET" [] c3Respond).store.authToken =
      none ∧
    (apiCall { authToken := some "tok123", user := some "u" }
        "http://localhost:8000/api" "/notifications/" "GET" [] c3Respond).tokenRemovals = 1) ∧
    (∀ h ∈ (apiCall { authToken := none, user := some "u" }
        "http://localhost:8000/api" "/notifications/" "GET" [] c3Respond).request.headers,
      h.1 ≠ "Authorization") := by
  constructor
  · exact apiCall_401_clears_token.1 { authToken := some "tok123", user := some "u" }
      "http://localhost:8000/api" "/notifications/" "GET" [] c3Respond
      { ok := false, status := 401, errJson := some none, body := "" } rfl rfl rfl
  · exact apiCall_401_clears_token.2 { authToken := none, user := some "u" }
      "http://localhost:8000/api" "/notifications/" "GET" [] c3Respond rfl
      (by intro h hmem; simp at hmem)

/-- C5 counterexample: the request a dispatcher call issues carries no
bounded timeout — apiCall goes through a plain fetch, not fetchWithTimeout
— refuting that every network call apiCall issues carries its own timeout. -/
theorem apiCall_request_has_no_timeout :
    (apiCall { authToken := some "tok123", user := none }
        "http://localhost:8000/api" "/diagnostics/" "GET" []
        (fun _ => Except.error JsError.timeout)).request.timeout = none := by
  rfl

/-- C5 (amended): a dispatcher call whose fetch rejects with a
network-level exception or timeout abort fails by propagating it as a
network-kind failure, distinct from every thrown failure (Not authenticated
and the request-failed details); requests issued through fetchWithTimeout
carry their caller-chosen bounded timeout and signal the failure of their
single request without retry; but the request apiCall itself issues is a
plain fetch with no timeout armed at that layer. -/
theorem apiCall_network_failure_and_timeout_shape :
    (∀ (st : Storage) (base ep m : String) (oh : List (String × String))
        (respond : RespOracle) (e : JsError),
        respond (apiCallRequest st base ep m oh) = Except.error e →
        (apiCall st base ep m oh respond).result = Except.error (ApiError.network e) ∧
        (∀ d : String, ApiError.network e ≠ ApiError.thrown d)) ∧
    (∀ (respond : RespOracle) (url m : String) (oh : List (String × String)) (t : Nat),
        (fetchWithTimeout respond url m oh t).1.timeout = some t ∧
        (fetchWithTimeout respond url m oh t).2 =
          respond (fetchWithTimeoutRequest url m oh t)) ∧
    (∀ (st : Storage) (base ep m : String) (oh : List (String × String)),
        (apiCallRequest st base ep m oh).timeout = none) := by
  refine ⟨?_, ?_, ?_⟩
  · intro st base ep m oh respond e hresp
    constructor
    · simp [apiCall, apiCallGo, hresp]
    · intro d hcontra
      exact ApiError.noConfusion hcontra
  · intro respond url m oh t
    exact ⟨rfl, rfl⟩
  · intro st base ep m oh
    rfl

/-- A fetch layer that rejects everything with a network failure, for the
C5 witness. -/
def c5Respond : RespOracle := fun _ =>
  Except.error (JsError.network "Network request failed")

theorem apiCall_network_failure_witness :
    ((apiCall { authToken := none, user := none } "http://localhost:8000/api"
        "/mechanics/" "GET" [] c5Respond).result =
      Except.error (ApiError.network (JsError.network "Network request failed")) ∧
    (∀ d : String,
      ApiError.network (JsError.network "Network request failed") ≠ ApiError.thrown d)) ∧
    ((fetchWithTimeout c5Respond "http://localhost:8000/api/health" "GET" [] 5000).1.timeout =
      some 5000 ∧
    (fetchWithTimeout c5Respond "http://localhost:8000/api/health" "GET" [] 5000).2 =
      c5Respond (fetchWithTimeoutRequest "http://localhost:8000/api/health" "GET" [] 5000)) ∧
    (apiCallRequest { authToken := none, user := none } "http://localhost:8000/api"
        "/mechanics/" "GET" []).timeout = none := by
  refine ⟨?_, ?_, ?_⟩
  · exact apiCall_network_failure_and_timeout_shape.1 { authToken := none, user := none }
      "http://localhost:8000/api" "/mechanics/" "GET" [] c5Respond
      (JsError.network "Network request failed") rfl
  · exact apiCall_network_failure_and_timeout_shape.2.1 c5Respond
      "http://localhost:8000/api/health" "GET" [] 5000
  · exact apiCall_network_failure_and_timeout_shape.2.2 { authToken := none, user := none }
      "http://localhost:8000/api" "/mechanics/" "GET" []

/-! ## Session/auth manager (src/context/AuthContext.tsx) -/

/-- A row of the local users table (offline credential cache): the SQLite
schema stores is_active as an integer. -/
structure DbRow where
  id : Int
  email : String
  name : String
  password : String
  role : String
  is_active : Int
  created_at : String
  last_synced : String
deriving DecidableEq, Repr

/-- An opened local database handle: either a working database with its
rows, or a handle whose every query throws. -/
inductive DbConn where
  | good (rows : List DbRow)
  | broken
deriving DecidableEq, Repr

/-- The user record of the auth context. -/
structure User where
  id : Int
  email : String
  name : String
  role : String
  is_active : Bool
  created_at : String
deriving DecidableEq, Repr

/-- Lazy database resolution: the current module-level db handle when set,
otherwise whatever initDatabase yields (initDatabase catches its own
errors, so a failed open leaves the handle null). -/
def resolveDb (cur init : Option DbConn) : Option DbConn :=
  match cur with
  | some c => some c
  | none => init

/-- The SELECT of checkLocalUser: first row matching email and password
exactly; on a broken handle the query throws. -/
def dbFindUser (c : DbConn) (email password : String) : Except JsError (Option DbRow) :=
  match c with
  | .good rows => .ok (rows.find? (fun r => r.email == email && r.password == password))
  | .broken => .error (.db "database failure")

/-- The row-to-user conversion of checkLocalUser (is_active via double
negation of the stored integer). -/
def rowToUser (r : DbRow) : User :=
  { id := r.id
    email := r.email
    name := r.name
    role := r.role
    is_active := r.is_active != 0
    created_at := r.created_at }

/-- checkLocalUser with the exception effect kept visible: a null handle
dereference or a query failure raises inside the try block, and the catch
handler returns null. -/
def checkLocalUserE (cur init : Option DbConn) (email password : String) :
    Except JsError (Option User) :=
  jsTry
    (do
      let c ← match resolveDb cur init with
        | some c => pure c
        | none => throw (JsError.typeError "null is not an object")
      let row ← dbFindUser c email password
      match row with
      | some r => pure (some (rowToUser r))
      | none => pure none)
    (fun _ => pure none)

/-- checkLocalUser: the total function the catch-all makes of the lookup —
a user on an exact email+password match, null on a miss and null on any
database failure. -/
def checkLocalUser (cur init : Option DbConn) (email password : String) : Option User :=
  match resolveDb cur init with
  | some (.good rows) =>
      match rows.find? (fun r => r.email == email && r.password == password) with
      | some r => some (rowToUser r)
      | none => none
  | some .broken => none
  | none => none

/-- Stands for JSON.stringify of a user record as persisted under the user
storage key: a concrete injective field-by-field rendering. -/
def userJson (u : User) : String :=
  "id=" ++ toString u.id ++ ";email=" ++ u.email ++ ";name=" ++ u.name ++
    ";role=" ++ u.role ++ ";active=" ++ toString u.is_active ++
    ";created=" ++ u.created_at

/-- The in-memory session of the auth provider (the user and token React
state). -/
structure Session where
  user : Option User
  token : Option String
deriving DecidableEq, Repr

/-- A failure escaping an auth-context operation: an Error thrown with a
message, or a raw JavaScript exception rethrown unchanged. -/
inductive AuthErr where
  | thrown (msg : String)
  | js (e : JsError)
deriving DecidableEq, Repr

/-- The payload of a successful login/register response. -/
structure LoginData where
  access_token : String
  user : User
deriving DecidableEq, Repr

/-- What signIn inspects of the login response: ok flag, status, the raw
error body text, its JSON parse (outer none when parsing throws, inner
value the detail field), and the parsed success payload (none when
response.json() would throw on the success path). -/
structure LoginResp where
  ok : Bool
  status : Nat
  bodyText : String
  errJson : Option (Option String)
  body : Option LoginData
deriving DecidableEq, Repr

/-- The error detail signIn throws for a non-ok login response. -/
def loginErrDetail (r : LoginResp) : String :=
  match r.errJson with
  | some (some d) => if d = "" then "Login failed" else d
  | some none => "Login failed"
  | none => if r.bodyText = "" then "Login failed" else r.bodyText

/-- The row saveLocalUser writes. -/
def newDbRow (u : User) (password nowIso : String) : DbRow :=
  { id := u.id
    email := u.email
    name := u.name
    password := password
    role := u.role
    is_active := if u.is_active then 1 else 0
    created_at := u.created_at
    last_synced := nowIso }

/-- saveLocalUser: INSERT OR REPLACE into the users table (replacing any
row conflicting on the id primary key or the unique email); its catch
swallows database failures, leaving the handle as it was. -/
def saveLocalUser (cur init : Option DbConn) (u : User) (password nowIso : String) :
    Option DbConn :=
  match resolveDb cur init with
  | some (.good rows) =>
      some (.good ((rows.filter (fun r => !(r.id == u.id) && !(r.email == u.email))) ++
        [newDbRow u password nowIso]))
  | some .broken => some .broken
  | none => none

/-- Observable outcome of one signIn call: its result, the persisted
storage afterwards, and the local database handle afterwards. -/
structure SignInOut where
  result : Except AuthErr Session
  store : Storage
  db : Option DbConn
deriving Repr

/-- The offline-auth failure message of signIn. -/
def offlineAuthMsg : String :=
  "Cannot authenticate while offline. No matching local account found."

/-- The synthetic offline token signIn generates from the clock and the
random suffix. -/
def offlineToken (now : Nat) (rand : String) : String :=
  "offline_" ++ toString now ++ "_" ++ rand

/-- signIn: offline, authenticate against the local cache (a hit stores a
generated offline token and the serialized user; a miss throws the
offline-auth error before touching storage); online, POST to /auth/login
with a 30 s fetchWithTimeout budget and on success persist token and user
and mirror the credential into the local cache. -/
def signIn (net : Bool) (cur init : Option DbConn) (st : Storage)
    (email password : String) (resp : Except JsError LoginResp)
    (now : Nat) (rand : String) : SignInOut :=
  if net = false then
    match checkLocalUser cur init email password with
    | some u =>
        { result := .ok { user := some u, token := some (offlineToken now rand) }
          store := { authToken := some (offlineToken now rand), user := some (userJson u) }
          db := resolveDb cur init }
    | none =>
        { result := .error (.thrown offlineAuthMsg)
          store := st
          db := resolveDb cur init }
  else
    match resp with
    | .error e => { result := .error (.js e), store := st, db := cur }
    | .ok r =>
        if r.ok = false then
          { result := .error (.thrown (loginErrDetail r)), store := st, db := cur }
        else
          match r.body with
          | none => { result := .error (.js JsError.parse), store := st, db := cur }
          | some d =>
              { result := .ok { user := some d.user, token := some d.access_token }
                store := { authToken := some d.access_token
                           user := some (userJson d.user) }
                db := saveLocalUser cur init d.user password (toString now) }

/-- Observable outcome of signOut. -/
structure SignOutOut where
  result : Except AuthErr Unit
  store : Storage
  session : Session
deriving Repr

/-- signOut: remove the two persisted keys and clear the in-memory user
and token (the storage removals are total, so this always succeeds). -/
def signOut (_st : Storage) : SignOutOut :=
  { result := .ok ()
    store := { authToken := none, user := none }
    session := { user := none, token := none } }

/-- The updateMechanicInfo outcome: the guard can skip the whole call
silently, or the PUT is performed. -/
inductive UpdateResult where
  | skipped
  | updated
deriving DecidableEq, Repr

/-- The offline failure message of updateMechanicInfo. -/
def offlineUpdateMsg : String :=
  "Cannot update profile while offline. Please connect to the internet and try again."

/-- The offline failure message of uploadCertificate. -/
def offlineUploadMsg : String :=
  "Cannot upload certificate while offline. Please connect to the internet and try again."

/-- updateMechanicInfo: the guard returns silently — no request, no error —
unless a user with the mechanic role and a token are present; then an
offline device throws, a rejected fetch is rethrown, a non-ok response
throws, and an ok response completes the update. -/
def updateMechanicInfo (sess : Session) (net : Bool) (resp : Except JsError Bool) :
    Except AuthErr UpdateResult :=
  match sess.user with
  | none => .ok .skipped
  | some u =>
      if u.role = "mechanic" then
        match sess.token with
        | none => .ok .skipped
        | some _ =>
            if net = false then .error (.thrown offlineUpdateMsg)
            else
              match resp with
              | .error e => .error (.js e)
              | .ok ok =>
                  if ok then .ok .updated
                  else .error (.thrown "Failed to update mechanic info")
      else .ok .skipped

/-- uploadCertificate: a missing token throws Not authenticated, an offline
device throws, a rejected fetch is rethrown, a non-ok response throws and
an ok response completes (the verified flag it then sets is not modelled). -/
def uploadCertificate (sess : Session) (net : Bool) (resp : Except JsError Bool) :
    Except AuthErr Unit :=
  match sess.token with
  | none => .error (.thrown "Not authenticated")
  | some _ =>
      if net = false then .error (.thrown offlineUploadMsg)
      else
        match resp with
        | .error e => .error (.js e)
        | .ok ok =>
            if ok then .ok ()
            else .error (.thrown "Failed to upload certificate")

theorem offlineToken_ne_empty (now : Nat) (rand : String) :
    offlineToken now rand ≠ "" := by
  intro h
  have h8 : ("offline_" : String).length = 8 := by decide
  have hlen := congrArg String.length h
  simp [offlineToken, String.length_append, h8] at hlen

/-- C4: an offline signIn against a working local cache that holds a row
matching both email and password exactly yields an authenticated session
whose generated token is a non-empty offline token, persisted together
with the serialized user; an offline signIn whose lookup misses fails with
the offline-auth error and leaves the persisted storage unchanged. -/
theorem offline_signin_cache (rows : List DbRow) (row : DbRow) (init : Option DbConn)
    (st : Storage) (email password : String) (resp : Except JsError LoginResp)
    (now : Nat) (rand : String) :
    (rows.find? (fun r => r.email == email && r.password == password) = some row →
      (signIn false (some (.good rows)) init st email password resp now rand).result =
        Except.ok { user := some (rowToUser row), token := some (offlineToken now rand) } ∧
      offlineToken now rand ≠ "" ∧
      (signIn false (some (.good rows)) init st email password resp now rand).store =
        { authToken := some (offlineToken now rand)
          user := some (userJson (rowToUser row)) }) ∧
    (rows.find? (fun r => r.email == email && r.password == password) = none →
      (signIn false (some (.good rows)) init st email password resp now rand).result =
        Except.error (AuthErr.thrown offlineAuthMsg) ∧
      (signIn false (some (.good rows)) init st email password resp now rand).store = st) := by
  constructor
  · intro hfind
    refine ⟨?_, offlineToken_ne_empty now rand, ?_⟩ <;>
      simp [signIn, checkLocalUser, resolveDb, hfind]
  · intro hfind
    constructor <;> simp [signIn, checkLocalUser, resolveDb, hfind]

/-- A cached credential row for the C4 and C6 witnesses. -/
def c4Row : DbRow :=
  { id := 1
    email := "a@b.com"
    name := "Ann"
    password := "secret1"
    role := "user"
    is_active := 1
    created_at := "2024-01-01"
    last_synced := "2024-06-01" }

/-- A login response value used where witnesses need one (its content is
irrelevant on the offline path). -/
def cNoResp : Except JsError LoginResp := Except.error (JsError.network "offline")

theorem offline_signin_cache_witness :
    ((signIn false (some (.good [c4Row])) none { authToken := none, user := none }
        "a@b.com" "secret1" cNoResp 1700 "zz7").result =
      Except.ok { user := some (rowToUser c4Row), token := some (offlineToken 1700 "zz7") } ∧
    offlineToken 1700 "zz7" ≠ "" ∧
    (signIn false (some (.good [c4Row])) none { authToken := none, user := none }
        "a@b.com" "secret1" cNoResp 1700 "zz7").store =
      { authToken := some (offlineToken 1700 "zz7")
        user := some (userJson (rowToUser c4Row)) }) ∧
    ((signIn false (some (.good [c4Row])) none { authToken := some "old", user := some "ou" }
        "a@b.com" "wrongpw" cNoResp 1700 "zz7").result =
      Except.error (AuthErr.thrown offlineAuthMsg) ∧
    (signIn false (some (.good [c4Row])) none { authToken := some "old", user := some "ou" }
        "a@b.com" "wrongpw" cNoResp 1700 "zz7").store =
      { authToken := some "old", user := some "ou" }) := by
  constructor
  · exact (offline_signin_cache [c4Row] c4Row none { authToken := none, user := none }
      "a@b.com" "secret1" cNoResp 1700 "zz7").1 (by decide)
  · exact (offline_signin_cache [c4Row] c4Row none { authToken := some "old", user := some "ou" }
      "a@b.com" "wrongpw" cNoResp 1700 "zz7").2 (by decide)

/-- C6: starting from storage with no persisted token and no persisted
user, any successful signIn (offline or online) followed immediately by
signOut leaves both persisted keys empty — identical to the pre-sign-in
state — and the intermediate state really had a token written, so signOut
genuinely undoes the write. -/
theorem signin_signout_roundtrip (net : Bool) (cur init : Option DbConn) (st : Storage)
    (email password : String) (resp : Except JsError LoginResp) (now : Nat) (rand : String)
    (sess : Session)
    (hstart : st = { authToken := none, user := none })
    (hok : (signIn net cur init st email password resp now rand).result = Except.ok sess) :
    (signOut (signIn net cur init st email password resp now rand).store).store = st ∧
    (signIn net cur init st email password resp now rand).store.authToken ≠ none := by
  subst hstart
  refine ⟨rfl, ?_⟩
  cases hnet : net with
  | false =>
      cases hc : checkLocalUser cur init email password with
      | some u => simp [signIn, hnet, hc]
      | none => simp [signIn, hnet, hc] at hok
  | true =>
      cases hr : resp with
      | error e => simp [signIn, hnet, hr] at hok
      | ok r =>
          cases hro : r.ok with
          | false => simp [signIn, hnet, hr, hro] at hok
          | true =>
              cases hb : r.body with
              | none => simp [signIn, hnet, hr, hro, hb] at hok
              | some d => simp [signIn, hnet, hr, hro, hb]

theorem signin_signout_roundtrip_witness :
    (signOut (signIn false (some (.good [c4Row])) none { authToken := none, user := none }
        "a@b.com" "secret1" cNoResp 1700 "zz7").store).store =
      { authToken := none, user := none } ∧
    (signIn false (some (.good [c4Row])) none { authToken := none, user := none }
        "a@b.com" "secret1" cNoResp 1700 "zz7").store.authToken ≠ none := by
  exact signin_signout_roundtrip false (some (.good [c4Row])) none
    { authToken := none, user := none } "a@b.com" "secret1" cNoResp 1700 "zz7"
    { user := some (rowToUser c4Row), token := some (offlineToken 1700 "zz7") }
    rfl rfl

/-- A verified-role user for the C7 scenarios. -/
def mechUser : User :=
  { id := 7
    email := "mech@x.com"
    name := "Mo"
    role := "mechanic"
    is_active := true
    created_at := "2024-01-01" }

/-- C7 counterexample: a call to updateMechanicInfo with a mechanic user
but no token returns successfully as a silent no-op — it does not fail with
the Not authenticated error the claim requires. -/
theorem updateMechanicInfo_silent_skip :
    updateMechanicInfo { user := some mechUser, token := none } true (Except.ok true) =
      Except.ok UpdateResult.skipped ∧
    updateMechanicInfo { user := some mechUser, token := none } true (Except.ok true) ≠
      Except.error (AuthErr.thrown "Not authenticated") := by
  constructor
  · rfl
  · intro hcontra
    rw [show updateMechanicInfo { user := some mechUser, token := none } true
        (Except.ok true) = Except.ok UpdateResult.skipped from rfl] at hcontra
    exact Except.noConfusion hcontra

/-- C7 (amended): uploadCertificate without a token fails with Not
authenticated, and with a token but offline fails with the offline-upload
error; updateMechanicInfo with an authenticated mechanic but offline fails
with the offline-update error, while without a token it returns silently
as a skipped no-op (issuing no request) instead of failing with Not
authenticated. -/
theorem auth_actions_require_token_and_network :
    (∀ (sess : Session) (net : Bool) (resp : Except JsError Bool),
      sess.token = none →
      uploadCertificate sess net resp = Except.error (AuthErr.thrown "Not authenticated")) ∧
    (∀ (sess : Session) (t : String) (resp : Except JsError Bool),
      sess.token = some t →
      uploadCertificate sess false resp = Except.error (AuthErr.thrown offlineUploadMsg)) ∧
    (∀ (u : User) (t : String) (resp : Except JsError Bool),
      u.role = "mechanic" →
      updateMechanicInfo { user := some u, token := some t } false resp =
        Except.error (AuthErr.thrown offlineUpdateMsg)) ∧
    (∀ (sess : Session) (net : Bool) (resp : Except JsError Bool),
      sess.token = none →
      updateMechanicInfo sess net resp = Except.ok UpdateResult.skipped) := by
  refine ⟨?_, ?_, ?_, ?_⟩
  · intro sess net resp htok
    simp [uploadCertificate, htok]
  · intro sess t resp htok
    simp [uploadCertificate, htok]
  · intro u t resp hrole
    simp [updateMechanicInfo, hrole]
  · intro sess net resp htok
    cases hu : sess.user with
    | none => simp [updateMechanicInfo, hu]
    | some u =>
        by_cases hr : u.role = "mechanic" <;> simp [updateMechanicInfo, hu, hr, htok]

theorem auth_actions_require_token_and_network_witness :
    uploadCertificate { user := some mechUser, token := none } true (Except.ok true) =
      Except.error (AuthErr.thrown "Not authenticated") ∧
    uploadCertificate { user := some mechUser, token := some "tok9" } false (Except.ok true) =
      Except.error (AuthErr.thrown offlineUploadMsg) ∧
    updateMechanicInfo { user := some mechUser, token := some "tok9" } false (Except.ok true) =
      Except.error (AuthErr.thrown offlineUpdateMsg) ∧
    updateMechanicInfo { user := some mechUser, token := none } false (Except.ok true) =
      Except.ok UpdateResult.skipped := by
  refine ⟨?_, ?_, ?_, ?_⟩
  · exact auth_actions_require_token_and_network.1
      { user := some mechUser, token := none } true (Except.ok true) rfl
  · exact auth_actions_require_token_and_network.2.1
      { user := some mechUser, token := some "tok9" } "tok9" (Except.ok true) rfl
  · exact auth_actions_require_token_and_network.2.2.1 mechUser "tok9" (Except.ok true) rfl
  · exact auth_actions_require_token_and_network.2.2.2
      { user := some mechUser, token := none } false (Except.ok true) rfl

/-- C10: the offline credential lookup is total — for every input and every
local-database state (an unopened handle, a handle that fails to open, a
working database or one whose queries throw) the exception-level run of
checkLocalUser ends normally with the user-or-null answer, never
propagating a database exception — and an offline signIn over a broken or
unopenable credential cache fails with the same offline-auth error as a
cache miss, leaving persisted storage untouched. -/
theorem checkLocalUser_total_offline_safe :
    (∀ (cur init : Option DbConn) (email password : String),
      checkLocalUserE cur init email password =
        Except.ok (checkLocalUser cur init email password)) ∧
    (∀ (init : Option DbConn) (st : Storage) (email password : String)
        (resp : Except JsError LoginResp) (now : Nat) (rand : String),
      (signIn false (some DbConn.broken) init st email password resp now rand).result =
        Except.error (AuthErr.thrown offlineAuthMsg) ∧
      (signIn false (some DbConn.broken) init st email password resp now rand).store = st ∧
      (signIn false none none st email password resp now rand).result =
        Except.error (AuthErr.thrown offlineAuthMsg) ∧
      (signIn false none none st email password resp now rand).store = st) := by
  constructor
  · intro cur init email password
    cases hdb : resolveDb cur init with
    | none => simp [checkLocalUserE, checkLocalUser, jsTry, hdb, bind, Except.bind,
        pure, Except.pure, throw, throwThe, MonadExceptOf.throw]
    | some c =>
        cases c with
        | broken => simp [checkLocalUserE, checkLocalUser, dbFindUser, jsTry, hdb,
            bind, Except.bind, pure, Except.pure]
        | good rows =>
            cases hf : rows.find? (fun r => r.email == email && r.password == password) with
            | some r => simp [checkLocalUserE, checkLocalUser, dbFindUser, jsTry, hdb, hf,
                bind, Except.bind, pure, Except.pure]
            | none => simp [checkLocalUserE, checkLocalUser, dbFindUser, jsTry, hdb, hf,
                bind, Except.bind, pure, Except.pure]
  · intro init st email password resp now rand
    refine ⟨?_, ?_, ?_, ?_⟩ <;>
      simp [signIn, checkLocalUser, resolveDb]
